import Mathlib

/-!
Verification development for the Reolink NVR plugin (Go).

Go strings are modelled as lists of bytes (`List Nat`); the repository only
ever matches ASCII data, so an ASCII Lean string literal is converted to its
byte list via the code points of its characters.  Machine integers are
modelled as `Int`/`Nat`, `float64` values that only ever carry small decimal
fractions as `Rat`, and fallible Go functions as `Except String`.
-/

namespace Reolink

/-- Byte list of an ASCII string literal (Go `string` values are byte strings). -/
def bytes (s : String) : List Nat := s.data.map Char.toNat

/-- Go `strings.ToLower` restricted to ASCII input: bytes 65–90 are shifted by 32. -/
def toLowerByte (b : Nat) : Nat := if 65 ≤ b ∧ b ≤ 90 then b + 32 else b

/-- ASCII lowering of a whole byte string, as `strings.ToLower` does on the
model strings this repository handles. -/
def goToLower (s : List Nat) : List Nat := s.map toLowerByte

/-- Whether the byte string `s` starts with `pre` (cf. Go `strings.HasPrefix`,
used here only to build the substring test below). -/
def listStartsWith : List Nat → List Nat → Bool
  | _, [] => true
  | [], _ :: _ => false
  | a :: s, b :: t => decide (a = b) && listStartsWith s t

/-- Go `strings.Contains s sub`: `sub` occurs contiguously in `s`. -/
def listContains : List Nat → List Nat → Bool
  | [], sub => listStartsWith [] sub
  | a :: s, sub => listStartsWith (a :: s) sub || listContains s sub

/-- Shallow embedding of `containsIgnoreCase` from src/camera.go: the exact
recursion of the Go source, with the byte comparison `s[0]|0x20 == substr[0]|0x20`.
The middle disjunct of the Go source carries guards `len(s) > 0 && len(substr) > 0`,
which the pattern match realises. -/
def containsIgnoreCase : List Nat → List Nat → Bool
  | [], sub => decide (sub.length ≤ 0) && decide (([] : List Nat) = sub)
  | a :: s, [] =>
      decide (List.length ([] : List Nat) ≤ s.length + 1) &&
        (decide (a :: s = ([] : List Nat)) || containsIgnoreCase s [])
  | a :: s, b :: sub =>
      decide (sub.length + 1 ≤ s.length + 1) &&
        (decide (a :: s = b :: sub) ||
          (decide ((a ||| 32) = (b ||| 32)) && containsIgnoreCase s sub) ||
          containsIgnoreCase s (b :: sub))

/-- Case-insensitive (byte `| 0x20`) subsequence test: `sub` embeds into `s`
in order, not necessarily contiguously.  This is the specification-side
predicate that `containsIgnoreCase` turns out to compute. -/
def isSubseqCI : List Nat → List Nat → Bool
  | [], _ => true
  | _ :: _, [] => false
  | b :: sub, a :: s =>
      (decide ((a ||| 32) = (b ||| 32)) && isSubseqCI sub s) || isSubseqCI (b :: sub) s

/-- Case-insensitive contiguous-substring test (ASCII lowering on both sides),
the specification-side reading of the phrase "contains as a substring,
case-insensitively". -/
def substrCI (s sub : List Nat) : Bool := listContains (goToLower s) (goToLower sub)

theorem isSubseqCI_nil_left (s : List Nat) : isSubseqCI [] s = true := by
  cases s <;> rfl

theorem isSubseqCI_length {sub s : List Nat} (h : isSubseqCI sub s = true) :
    sub.length ≤ s.length := by
  induction s generalizing sub with
  | nil =>
    cases sub with
    | nil => simp
    | cons b t => simp [isSubseqCI] at h
  | cons a s ih =>
    cases sub with
    | nil => simp
    | cons b t =>
      simp only [isSubseqCI, Bool.or_eq_true, Bool.and_eq_true] at h
      rcases h with ⟨_, h1⟩ | h2
      · simpa using Nat.succ_le_succ (ih h1)
      · exact Nat.le_succ_of_le (ih h2)

theorem isSubseqCI_self (s : List Nat) : isSubseqCI s s = true := by
  induction s with
  | nil => rfl
  | cons a s ih => simp [isSubseqCI, ih]

theorem containsIgnoreCase_nil_right (s : List Nat) :
    containsIgnoreCase s [] = true := by
  induction s with
  | nil => rfl
  | cons a s ih => simp [containsIgnoreCase, ih]

/-- The recursive Go helper is exactly the case-insensitive subsequence test:
its middle disjunct advances both strings and then searches the pattern tail
anywhere in the remaining text, so contiguity is not enforced. -/
theorem containsIgnoreCase_eq_isSubseqCI (s sub : List Nat) :
    containsIgnoreCase s sub = isSubseqCI sub s := by
  induction s generalizing sub with
  | nil =>
    cases sub with
    | nil => rfl
    | cons b t => simp [containsIgnoreCase, isSubseqCI]
  | cons a s ih =>
    cases sub with
    | nil => simp [containsIgnoreCase, containsIgnoreCase_nil_right, isSubseqCI_nil_left]
    | cons b t =>
      simp only [containsIgnoreCase, isSubseqCI, ih]
      rw [Bool.eq_iff_iff]
      simp only [Bool.and_eq_true, Bool.or_eq_true, decide_eq_true_eq]
      constructor
      · intro hc
        obtain ⟨-, h⟩ := hc
        rcases h with (h | h) | h
        · injection h with h1 h2
          subst h1; subst h2
          exact Or.inl ⟨rfl, isSubseqCI_self _⟩
        · exact Or.inl h
        · exact Or.inr h
      · intro h
        refine ⟨?_, ?_⟩
        · rcases h with ⟨-, h1⟩ | h2
          · exact Nat.succ_le_succ (isSubseqCI_length h1)
          · exact Nat.le_succ_of_le (isSubseqCI_length h2)
        · rcases h with ⟨h0, h1⟩ | h2
          · exact Or.inl (Or.inr ⟨h0, h1⟩)
          · exact Or.inr h2

/-! Model-name heuristics of src/camera.go (free functions). -/

/-- Embedding of `isDoorbellModel` from src/camera.go. -/
def isDoorbellModel (model : List Nat) : Bool := containsIgnoreCase model (bytes "doorbell")

/-- Embedding of `isBatteryModel` from src/camera.go. -/
def isBatteryModel (model : List Nat) : Bool :=
  [bytes "argus", bytes "lumus", bytes "go", bytes "battery"].any
    (fun kw => containsIgnoreCase model kw)

/-- Denylist of `hasAIDetection` in src/camera.go (and src/client.go). -/
def noAI : List (List Nat) := [bytes "rlc-410", bytes "rlc-420", bytes "e1 zoom", bytes "c1 pro"]

/-- Embedding of `hasAIDetection` from src/camera.go: false exactly when some
denylist entry is matched by `containsIgnoreCase`. -/
def hasAIDetection (model : List Nat) : Bool :=
  !(noAI.any (fun m => containsIgnoreCase model m))

namespace Client

/-- Embedding of `Client.detectDeviceType` from src/client.go: lowercase the
model, then run the first-match-wins chain of `strings.Contains` tests. -/
def detectDeviceType (model : List Nat) : String :=
  let m := goToLower model
  if listContains m (bytes "doorbell") then "doorbell"
  else if listContains m (bytes "nvr") || listContains m (bytes "rlnk") then "nvr"
  else if listContains m (bytes "argus") || listContains m (bytes "lumus") then "battery_camera"
  else if listContains m (bytes "trackmi") then "ptz_camera"
  else if listContains m (bytes "duo") || listContains m (bytes "floodlight") then "floodlight_camera"
  else "camera"

/-- Embedding of `Client.isDoorbellModel` from src/client.go. -/
def isDoorbellModel (model : List Nat) : Bool :=
  listContains (goToLower model) (bytes "doorbell")

/-- Substring list of `Client.isNVRModel` in src/client.go. -/
def nvrModels : List (List Nat) :=
  [bytes "nvr", bytes "rln8-410", bytes "rln16-410", bytes "rln36"]

/-- Embedding of `Client.isNVRModel` from src/client.go. -/
def isNVRModel (model : List Nat) : Bool :=
  nvrModels.any (fun nm => listContains (goToLower model) nm)

/-- Embedding of `Client.isBatteryModel` from src/client.go. -/
def isBatteryModel (model : List Nat) : Bool :=
  [bytes "argus", bytes "lumus", bytes "go", bytes "battery"].any
    (fun bm => listContains (goToLower model) bm)

/-- Embedding of `Client.hasAIDetection` from src/client.go (the
`strings.Contains` variant of the denylist). -/
def hasAIDetection (model : List Nat) : Bool :=
  !(Reolink.noAI.any (fun m => listContains (goToLower model) m))

end Client

/-! Client configuration, authentication state and request URLs (src/client.go). -/

/-- Immutable connection data of a `Client` (src/client.go fields
`host`, `port`, `username`, `password`). -/
structure ClientCfg where
  host : List Nat
  port : Nat
  username : List Nat
  password : List Nat

/-- Mutable authentication state of a `Client` (src/client.go fields
`token`, `tokenExp`, `useBasicAuth`); time is modelled in whole seconds. -/
structure ClientState where
  token : List Nat
  tokenExp : Int
  useBasicAuth : Bool

/-- Decimal byte string of a natural number, as Go `fmt.Sprintf` with `%d`. -/
def natBytes (n : Nat) : List Nat := bytes (toString n)

/-- Zero-padded two-digit decimal, as Go `fmt.Sprintf` with `%02d`. -/
def pad2 (n : Nat) : List Nat := if n < 10 then 48 :: natBytes n else natBytes n

/-- Bytes Go `net/url.QueryEscape` leaves unescaped: ASCII alphanumerics
and `-`, `_`, `.`, `~`. -/
def isUnreservedByte (b : Nat) : Bool :=
  (48 ≤ b && b ≤ 57) || (65 ≤ b && b ≤ 90) || (97 ≤ b && b ≤ 122) ||
    b == 45 || b == 95 || b == 46 || b == 126

/-- Uppercase hexadecimal digit byte for a value below 16. -/
def hexDigitByte (n : Nat) : Nat := if n < 10 then 48 + n else 55 + n

/-- Embedding of Go `net/url.QueryEscape`: unreserved bytes pass through,
space becomes `+`, everything else becomes `%XX`. -/
def queryEscape (s : List Nat) : List Nat :=
  s.flatMap (fun b =>
    if isUnreservedByte b then [b]
    else if b = 32 then [43]
    else [37, hexDigitByte (b / 16), hexDigitByte (b % 16)])

/-- Embedding of `Client.baseURL` from src/client.go. -/
def baseURL (cfg : ClientCfg) : List Nat :=
  if cfg.port = 443 then bytes "https://" ++ cfg.host
  else bytes "http://" ++ cfg.host ++ bytes ":" ++ natBytes cfg.port

/-- Embedding of `Client.apiURL` from src/client.go. -/
def apiURL (cfg : ClientCfg) : List Nat := baseURL cfg ++ bytes "/api.cgi"

/-- State written by the token branch of `Client.Login` (src/client.go): the
token name is stored and the expiry set to now plus the lease (default 3600
seconds when the device reports none) minus the 60-second safety margin. -/
def loginToken (st : ClientState) (now : Int) (tokenName : List Nat)
    (leaseTime : Option Int) : ClientState :=
  { st with token := tokenName, tokenExp := now + (leaseTime.getD 3600 - 60) }

/-- State written by a successful basic-auth probe (`Client.tryBasicAuth`):
only the `useBasicAuth` flag is set. -/
def basicAuthSuccess (st : ClientState) : ClientState := { st with useBasicAuth := true }

/-- Condition of `Client.ensureToken` from src/client.go under which it calls
`Login`; `time.Now().After(tokenExp)` is the strict comparison. -/
def needLogin (st : ClientState) (now : Int) : Bool :=
  !st.useBasicAuth && (decide (st.token = []) || decide (st.tokenExp < now))

/-- Number of `Login` calls `Client.ensureToken` performs at a given instant:
one when `needLogin` holds, none otherwise. -/
def ensureTokenLogins (st : ClientState) (now : Int) : Nat :=
  if needLogin st now then 1 else 0

/-- Request URL built by `Client.doRequest` (src/client.go) when `useToken`
is set: URL credentials in basic-auth mode, else the token when nonempty. -/
def doRequestReqURL (cfg : ClientCfg) (st : ClientState) (useToken : Bool) : List Nat :=
  let base := apiURL cfg
  if useToken then
    if st.useBasicAuth then
      base ++ bytes "?user=" ++ queryEscape cfg.username ++
        bytes "&password=" ++ queryEscape cfg.password
    else if st.token ≠ [] then base ++ bytes "?token=" ++ queryEscape st.token
    else base
  else base

/-- Snapshot URL built by `Client.GetSnapshot` (src/client.go): it always
appends the current token, unescaped, and never the credentials. -/
def snapURL (cfg : ClientCfg) (st : ClientState) (channel : Nat) : List Nat :=
  baseURL cfg ++ bytes "/cgi-bin/api.cgi?cmd=Snap&channel=" ++ natBytes channel ++
    bytes "&token=" ++ st.token

/-- Embedding of `Client.RTSPStreamURL` from src/client.go. -/
def rtspStreamURL (cfg : ClientCfg) (channel : Nat) (stream : String) : List Nat :=
  let streamSuffix : String := if stream = "sub" then "sub" else "main"
  bytes "rtsp://" ++ queryEscape cfg.username ++ bytes ":" ++ queryEscape cfg.password ++
    bytes "@" ++ cfg.host ++ bytes ":554/h264Preview_" ++ pad2 (channel + 1) ++
    bytes "_" ++ bytes streamSuffix

/-- Embedding of `Client.RTMPStreamURL` from src/client.go. -/
def rtmpStreamURL (cfg : ClientCfg) (channel : Nat) (stream : String) : List Nat :=
  bytes "rtmp://" ++ cfg.host ++ bytes ":1935/bcs/channel" ++ natBytes channel ++
    bytes "_" ++ bytes stream ++ bytes ".bcs?user=" ++ queryEscape cfg.username ++
    bytes "&password=" ++ queryEscape cfg.password

/-! PTZ command translation (src/camera.go, `Camera.PTZControl`). -/

/-- Abstract PTZ command received from the host (src/main.go `PTZCommand`);
the two `float64` fields are modelled as rationals. -/
structure PTZCommand where
  Action : String
  Direction : Rat := 0
  Speed : Rat := 0
  Preset : String := ""

/-- Vendor PTZ command struct (src/client.go `PTZCmd`). -/
structure PTZCmd where
  Operation : String := ""
  Speed : Int := 0
  Preset : String := ""
deriving DecidableEq

/-- Go conversion `int(x)` for a `float64`: truncation toward zero. -/
def goIntOfRat (q : Rat) : Int := if q < 0 then -⌊-q⌋ else ⌊q⌋

/-- Integer speed `Camera.PTZControl` sends: 30 unless the incoming speed is
positive, in which case Go computes `int(cmd.Speed * 64)` (truncation). -/
def goSpeed (cmd : PTZCommand) : Int :=
  if 0 < cmd.Speed then goIntOfRat (cmd.Speed * 64) else 30

/-- Embedding of the pure translation step of `Camera.PTZControl`
(src/camera.go): the switch over the action fills operation and preset into a
struct pre-seeded with speed 30, then the speed is overridden when positive. -/
def ptzTranslate (cmd : PTZCommand) : Except String PTZCmd :=
  let base : PTZCmd := { Operation := "", Speed := 30, Preset := "" }
  let withOp : Except String PTZCmd :=
    if cmd.Action = "pan" then
      .ok { base with Operation := if cmd.Direction < 0 then "Left" else "Right" }
    else if cmd.Action = "tilt" then
      .ok { base with Operation := if cmd.Direction < 0 then "Down" else "Up" }
    else if cmd.Action = "zoom" then
      .ok { base with Operation := if cmd.Direction < 0 then "ZoomDec" else "ZoomInc" }
    else if cmd.Action = "stop" then .ok { base with Operation := "Stop" }
    else if cmd.Action = "preset" then
      .ok { base with Operation := "ToPos", Preset := cmd.Preset }
    else .error ("unknown PTZ action: " ++ cmd.Action)
  withOp.map (fun c =>
    if 0 < cmd.Speed then { c with Speed := goIntOfRat (cmd.Speed * 64) } else c)

/-! Device probing (src/client.go, `Client.GetDeviceInfo` / `Client.ProbeCamera`).
The network fetches are nondeterministic; each claim-relevant fetch is an
oracle field of `ProbeEnv` holding the outcome the device produced. -/

/-- Parsed fields of a successful `GetDevInfo` reply; absent JSON fields are
`none` (Go leaves the struct field at its zero value). The reported channel
count is non-negative in the device schema. -/
structure RawDevInfo where
  model : Option (List Nat) := none
  name : Option (List Nat) := none
  serial : Option (List Nat) := none
  firmVer : Option (List Nat) := none
  channelNum : Option Nat := none

/-- Embedding of the `DeviceInfo` struct of src/client.go. -/
structure DeviceInfo where
  Model : List Nat
  Name : List Nat
  Serial : List Nat
  FirmwareVersion : List Nat
  ChannelCount : Nat

/-- Embedding of the `Ability` struct of src/client.go. -/
structure Ability where
  PTZ : Bool := false
  PanTilt : Bool := false
  AudioAlarm : Bool := false
  TwoWayAudio : Bool := false
deriving DecidableEq

/-- Embedding of the `StreamConfig` struct of src/client.go; the zero value
models the Go zero value. -/
structure StreamConfig where
  Width : Nat := 0
  Height : Nat := 0
  FrameRate : Nat := 0
  BitRate : Nat := 0
  Codec : List Nat := []
deriving DecidableEq

/-- Embedding of the `EncoderConfig` struct of src/client.go. -/
structure EncoderConfig where
  MainStream : StreamConfig := {}
  SubStream : StreamConfig := {}
deriving DecidableEq

/-- Embedding of the `ChannelInfo` struct of src/client.go. -/
structure ChannelInfo where
  Channel : Nat
  Name : List Nat := []
  Codec : List Nat := []
  MainStream : StreamConfig := {}
  SubStream : StreamConfig := {}
  RTMPMain : List Nat := []
  RTMPSub : List Nat := []
  RTSPMain : List Nat := []
  RTSPSub : List Nat := []
deriving DecidableEq

/-- Embedding of the `CameraProbeResult` struct of src/client.go. -/
structure CameraProbeResult where
  Host : List Nat
  Port : Nat
  Model : List Nat
  Name : List Nat
  Serial : List Nat
  FirmwareVersion : List Nat
  DeviceType : String
  IsDoorbell : Bool
  IsNVR : Bool
  IsBattery : Bool
  HasPTZ : Bool
  HasTwoWayAudio : Bool
  HasAudioAlarm : Bool
  HasAIDetection : Bool
  ChannelCount : Nat
  Channels : List ChannelInfo

/-- Outcomes of the network fetches a probe performs: the device-info fetch,
the ability fetch (channel 0), and the per-channel encoder fetch. -/
structure ProbeEnv where
  cfg : ClientCfg
  devInfoRaw : Except String RawDevInfo
  ability : Except String Ability
  enc : Nat → Except String EncoderConfig

/-- Field extraction of `Client.GetDeviceInfo` (src/client.go): copy the
parsed fields, defaulting each absent one to its zero value, then force a
channel count of 1 when the device reported none (or zero). -/
def devInfoOf (raw : RawDevInfo) : DeviceInfo :=
  { Model := raw.model.getD []
    Name := raw.name.getD []
    Serial := raw.serial.getD []
    FirmwareVersion := raw.firmVer.getD []
    ChannelCount := if raw.channelNum.getD 0 = 0 then 1 else raw.channelNum.getD 0 }

/-- Embedding of `Client.GetDeviceInfo` (src/client.go): a failed fetch is
passed through, a successful one is parsed by `devInfoOf`. -/
def getDeviceInfo (r : Except String RawDevInfo) : Except String DeviceInfo :=
  match r with
  | .error e => .error e
  | .ok raw => .ok (devInfoOf raw)

/-- Channel entry built by the probe loop of `Client.ProbeCamera`: stream
profiles are copied on a successful encoder fetch and left zero-valued on a
failed one; the stream URLs are filled either way. -/
def probeChannel (env : ProbeEnv) (ch : Nat) : ChannelInfo :=
  let base : ChannelInfo :=
    { Channel := ch
      RTMPMain := rtmpStreamURL env.cfg ch "main"
      RTMPSub := rtmpStreamURL env.cfg ch "sub"
      RTSPMain := rtspStreamURL env.cfg ch "main"
      RTSPSub := rtspStreamURL env.cfg ch "sub" }
  match env.enc ch with
  | .ok cfg =>
    { base with MainStream := cfg.MainStream, SubStream := cfg.SubStream
                Codec := cfg.MainStream.Codec }
  | .error _ => base

/-- Result assembled by `Client.ProbeCamera` (src/client.go) once device info
is available: classification from the model, declared flags false when the
ability fetch failed, and one probed channel entry per reported channel. -/
def probeResult (env : ProbeEnv) (devInfo : DeviceInfo) : CameraProbeResult :=
  { Host := env.cfg.host
    Port := env.cfg.port
    Model := devInfo.Model
    Name := devInfo.Name
    Serial := devInfo.Serial
    FirmwareVersion := devInfo.FirmwareVersion
    DeviceType := Client.detectDeviceType devInfo.Model
    IsDoorbell := Client.isDoorbellModel devInfo.Model
    IsNVR := decide (1 < devInfo.ChannelCount) || Client.isNVRModel devInfo.Model
    IsBattery := Client.isBatteryModel devInfo.Model
    HasPTZ := match env.ability with
              | .ok a => a.PTZ || a.PanTilt
              | .error _ => false
    HasTwoWayAudio := match env.ability with
                      | .ok a => a.TwoWayAudio
                      | .error _ => false
    HasAudioAlarm := match env.ability with
                     | .ok a => a.AudioAlarm
                     | .error _ => false
    HasAIDetection := Client.hasAIDetection devInfo.Model
    ChannelCount := devInfo.ChannelCount
    Channels := (List.range devInfo.ChannelCount).map (probeChannel env) }

/-- Embedding of `Client.ProbeCamera` (src/client.go): a failed device-info
fetch aborts the probe with a wrapped error; otherwise the result is built by
`probeResult`. -/
def probeCamera (env : ProbeEnv) : Except String CameraProbeResult :=
  match getDeviceInfo env.devInfoRaw with
  | .error e => .error ("failed to get device info: " ++ e)
  | .ok devInfo => .ok (probeResult env devInfo)

/-! Camera handles and the plugin registry (src/camera.go and src/main.go). -/

/-- Embedding of the `Camera` struct of src/camera.go, restricted to the
fields the claims touch (the client back-reference and `lastSeen` wall-clock
timestamp are not modelled). -/
structure CamRec where
  id : List Nat
  name : List Nat
  model : List Nat
  host : List Nat
  channel : Nat
  protocol : List Nat
  ability : Option Ability := none
  online : Bool := true
deriving DecidableEq

/-- Embedding of `NewCamera` (src/camera.go): the protocol defaults to
`rtsp` and the camera starts online. -/
def NewCamera (id name model host : List Nat) (channel : Nat) : CamRec :=
  { id := id, name := name, model := model, host := host, channel := channel
    protocol := bytes "rtsp", ability := none, online := true }

/-- Embedding of `Camera.SetAbility` (src/camera.go). -/
def setAbility (a : Ability) (c : CamRec) : CamRec := { c with ability := some a }

/-- Embedding of `Camera.SetProtocol` (src/camera.go): an empty argument is
replaced by `rtsp` before being stored. -/
def SetProtocol (protocol : List Nat) (c : CamRec) : CamRec :=
  { c with protocol := if protocol = [] then bytes "rtsp" else protocol }

/-- Embedding of `Camera.Protocol` (src/camera.go): an empty stored protocol
reads back as `rtsp`. -/
def Protocol (c : CamRec) : List Nat :=
  if c.protocol = [] then bytes "rtsp" else c.protocol

/-- The plugin's camera registry (the Go map `Plugin.cameras`), modelled as an
association list with unique keys maintained by `mapSet`. -/
def Registry := List (List Nat × CamRec)

/-- Go map read `cameras[id]`. -/
def mapGet : Registry → List Nat → Option CamRec
  | [], _ => none
  | (k', v) :: r, k => if k' = k then some v else mapGet r k

/-- Go map assignment `cameras[id] = cam`: replace the binding when the key
exists, append a fresh binding otherwise. -/
def mapSet (reg : Registry) (k : List Nat) (v : CamRec) : Registry :=
  match reg with
  | [] => [(k, v)]
  | (k', v') :: r => if k' = k then (k, v) :: r else (k', v') :: mapSet r k v

/-- Pointwise update of one binding, as Go `cam.SetProtocol(...)` mutates the
handle stored in the map. -/
def mapUpdate (reg : Registry) (k : List Nat) (f : CamRec → CamRec) : Registry :=
  reg.map (fun q => if q.1 = k then (q.1, f q.2) else q)

/-- Embedding of the `DeviceConfig` struct of src/main.go. -/
structure DeviceConfig where
  Host : List Nat
  Port : Nat := 0
  Username : List Nat := []
  Password : List Nat := []
  Channels : List Nat := []
  Name : List Nat := []

/-- Embedding of the `CameraConfig` struct of src/main.go. -/
structure CameraConfig where
  Host : List Nat
  Port : Nat := 0
  Username : List Nat := []
  Password : List Nat := []
  Channel : Nat := 0
  Name : List Nat := []
  Protocol : List Nat := []

/-- Outcomes of the network calls `Plugin.connectDevice` performs: login,
device-info fetch, and the ability fetch (nil ability on failure). -/
structure ConnectEnv where
  login : Except String Unit
  devInfoRaw : Except String RawDevInfo
  ability : Except String Ability

/-- Camera id `fmt.Sprintf("%s_ch%d", host, ch)` used by src/main.go. -/
def camID (host : List Nat) (ch : Nat) : List Nat := host ++ bytes "_ch" ++ natBytes ch

/-- Handle registered by one iteration of the `connectDevice` loop
(src/main.go): `NewCamera` followed by `SetAbility` when the ability fetch
succeeded. -/
def connCam (device : DeviceConfig) (info : DeviceInfo) (ab : Option Ability)
    (ch : Nat) : CamRec :=
  let cameraName0 := if device.Name = [] then info.Name else device.Name
  let cameraName :=
    if 1 < info.ChannelCount then cameraName0 ++ bytes " Ch" ++ natBytes (ch + 1)
    else cameraName0
  let cam := NewCamera (camID device.Host ch) cameraName info.Model device.Host ch
  match ab with
  | some a => setAbility a cam
  | none => cam

/-- Nil-able ability pointer of `connectDevice`: Go discards the fetch error
and leaves the pointer nil. -/
def abilityOpt (env : ConnectEnv) : Option Ability :=
  match env.ability with
  | .ok a => some a
  | .error _ => none

/-- Embedding of `Plugin.connectDevice` (src/main.go): login then device info
(both fatal, wrapped), then register one camera per configured channel —
defaulting to all reported channels — by plain map assignment. -/
def connectDevice (env : ConnectEnv) (device : DeviceConfig) (reg : Registry) :
    Except String Registry :=
  match env.login with
  | .error e => .error ("login failed: " ++ e)
  | .ok _ =>
    match getDeviceInfo env.devInfoRaw with
    | .error e => .error ("failed to get device info: " ++ e)
    | .ok info =>
      let channels :=
        if device.Channels = [] then List.range info.ChannelCount else device.Channels
      .ok (channels.foldl
        (fun r ch => mapSet r (camID device.Host ch) (connCam device info (abilityOpt env) ch))
        reg)

/-- The `DeviceConfig` that `Plugin.AddCamera` builds from a `CameraConfig`
(src/main.go): a positive channel is passed explicitly, channel 0 means all. -/
def deviceOf (cfg : CameraConfig) : DeviceConfig :=
  { Host := cfg.Host, Port := cfg.Port, Username := cfg.Username
    Password := cfg.Password
    Channels := if 0 < cfg.Channel then [cfg.Channel] else []
    Name := cfg.Name }

/-- Protocol application step of `Plugin.AddCamera`: a nonempty configured
protocol is applied to the freshly registered handle. -/
def protoPatch (cfg : CameraConfig) (c : CamRec) : CamRec :=
  if cfg.Protocol ≠ [] then SetProtocol cfg.Protocol c else c

/-- Embedding of `Plugin.AddCamera` (src/main.go): build a `DeviceConfig`,
connect, then apply the requested protocol to the camera registered under the
configured channel's id; returns the updated registry and the looked-up
handle. -/
def AddCamera (env : ConnectEnv) (cfg : CameraConfig) (reg : Registry) :
    Except String (Registry × Option CamRec) :=
  match connectDevice env (deviceOf cfg) reg with
  | .error e => .error e
  | .ok reg' =>
    let cameraID := camID cfg.Host cfg.Channel
    let reg'' :=
      if cfg.Protocol ≠ [] then mapUpdate reg' cameraID (SetProtocol cfg.Protocol)
      else reg'
    .ok (reg'', mapGet reg'' cameraID)

/-! Supporting lemmas. -/

theorem probeChannel_Channel (env : ProbeEnv) (ch : Nat) :
    (probeChannel env ch).Channel = ch := by
  unfold probeChannel
  cases env.enc ch <;> rfl

theorem probeChannel_error {env : ProbeEnv} {ch : Nat} {e : String}
    (h : env.enc ch = .error e) :
    (probeChannel env ch).MainStream = {} ∧ (probeChannel env ch).SubStream = {} ∧
      (probeChannel env ch).Codec = [] := by
  unfold probeChannel
  rw [h]
  exact ⟨rfl, rfl, rfl⟩

theorem mapGet_mapSet_self (reg : Registry) (k : List Nat) (v : CamRec) :
    mapGet (mapSet reg k v) k = some v := by
  induction reg with
  | nil => simp [mapSet, mapGet]
  | cons p r ih =>
    obtain ⟨k', v'⟩ := p
    by_cases h : k' = k
    · simp [mapSet, mapGet, h]
    · simp [mapSet, mapGet, h, ih]

theorem mapGet_mapUpdate_self (reg : Registry) (k : List Nat) (f : CamRec → CamRec) :
    mapGet (mapUpdate reg k f) k = (mapGet reg k).map f := by
  induction reg with
  | nil => simp [mapUpdate, mapGet]
  | cons p r ih =>
    obtain ⟨k', v'⟩ := p
    have hcons : mapUpdate ((k', v') :: r) k f =
        (if k' = k then (k', f v') else (k', v')) :: mapUpdate r k f := rfl
    rw [hcons]
    by_cases h : k' = k
    · subst h
      rw [if_pos rfl]
      simp [mapGet]
    · rw [if_neg h]
      simp [mapGet, h, ih]

theorem Protocol_ne_nil (c : CamRec) : Protocol c ≠ [] := by
  have hr : bytes "rtsp" ≠ [] := by decide
  unfold Protocol
  by_cases h : c.protocol = []
  · simpa [h] using hr
  · simp [h]

/-! Claim theorems. -/

/-- Claim C1 (amended): the PTZ translation maps pan/tilt/zoom by the sign of
the direction to Left/Right, Down/Up, ZoomDec/ZoomInc, stop to Stop, preset to
ToPos carrying the preset id, and any other action to the unknown-action
error; the integer speed sent is 30 when the speed is unset or not positive,
and `speed * 64` truncated toward zero (Go `int` conversion, not rounding)
otherwise. -/
theorem C1_ptzTranslate_cases (cmd : PTZCommand) :
    (cmd.Action = "pan" → cmd.Direction < 0 →
      ptzTranslate cmd = .ok { Operation := "Left", Speed := goSpeed cmd, Preset := "" }) ∧
    (cmd.Action = "pan" → 0 ≤ cmd.Direction →
      ptzTranslate cmd = .ok { Operation := "Right", Speed := goSpeed cmd, Preset := "" }) ∧
    (cmd.Action = "tilt" → cmd.Direction < 0 →
      ptzTranslate cmd = .ok { Operation := "Down", Speed := goSpeed cmd, Preset := "" }) ∧
    (cmd.Action = "tilt" → 0 ≤ cmd.Direction →
      ptzTranslate cmd = .ok { Operation := "Up", Speed := goSpeed cmd, Preset := "" }) ∧
    (cmd.Action = "zoom" → cmd.Direction < 0 →
      ptzTranslate cmd = .ok { Operation := "ZoomDec", Speed := goSpeed cmd, Preset := "" }) ∧
    (cmd.Action = "zoom" → 0 ≤ cmd.Direction →
      ptzTranslate cmd = .ok { Operation := "ZoomInc", Speed := goSpeed cmd, Preset := "" }) ∧
    (cmd.Action = "stop" →
      ptzTranslate cmd = .ok { Operation := "Stop", Speed := goSpeed cmd, Preset := "" }) ∧
    (cmd.Action = "preset" →
      ptzTranslate cmd = .ok { Operation := "ToPos", Speed := goSpeed cmd, Preset := cmd.Preset }) ∧
    (cmd.Action ∉ (["pan", "tilt", "zoom", "stop", "preset"] : List String) →
      ptzTranslate cmd = .error ("unknown PTZ action: " ++ cmd.Action)) := by
  refine ⟨?_, ?_, ?_, ?_, ?_, ?_, ?_, ?_, ?_⟩
  · intro ha hd
    by_cases hs : 0 < cmd.Speed <;>
      simp [ptzTranslate, goSpeed, ha, hd, hs, Except.map]
  · intro ha hd
    by_cases hs : 0 < cmd.Speed <;>
      simp [ptzTranslate, goSpeed, ha, not_lt.mpr hd, hs, Except.map]
  · intro ha hd
    by_cases hs : 0 < cmd.Speed <;>
      simp [ptzTranslate, goSpeed, ha, hd, hs, Except.map]
  · intro ha hd
    by_cases hs : 0 < cmd.Speed <;>
      simp [ptzTranslate, goSpeed, ha, not_lt.mpr hd, hs, Except.map]
  · intro ha hd
    by_cases hs : 0 < cmd.Speed <;>
      simp [ptzTranslate, goSpeed, ha, hd, hs, Except.map]
  · intro ha hd
    by_cases hs : 0 < cmd.Speed <;>
      simp [ptzTranslate, goSpeed, ha, not_lt.mpr hd, hs, Except.map]
  · intro ha
    by_cases hs : 0 < cmd.Speed <;>
      simp [ptzTranslate, goSpeed, ha, hs, Except.map]
  · intro ha
    by_cases hs : 0 < cmd.Speed <;>
      simp [ptzTranslate, goSpeed, ha, hs, Except.map]
  · intro ha
    simp only [List.mem_cons, List.mem_singleton, not_or] at ha
    obtain ⟨h1, h2, h3, h4, h5, -⟩ := ha
    simp [ptzTranslate, h1, h2, h3, h4, h5, Except.map]

/-- Witness for C1: the translation evaluated on the spec's example commands,
including the default and the 0.5-speed cases. -/
theorem C1_ptzTranslate_cases_witness :
    ptzTranslate { Action := "pan", Direction := -1, Speed := 0, Preset := "" } =
      .ok { Operation := "Left", Speed := 30, Preset := "" } ∧
    ptzTranslate { Action := "pan", Direction := 1, Speed := 1/2, Preset := "" } =
      .ok { Operation := "Right", Speed := 32, Preset := "" } ∧
    ptzTranslate { Action := "stop", Direction := 0, Speed := 0, Preset := "" } =
      .ok { Operation := "Stop", Speed := 30, Preset := "" } ∧
    ptzTranslate { Action := "preset", Direction := 0, Speed := 0, Preset := "p1" } =
      .ok { Operation := "ToPos", Speed := 30, Preset := "p1" } ∧
    ptzTranslate { Action := "wave", Direction := 0, Speed := 0, Preset := "" } =
      .error "unknown PTZ action: wave" := by
  refine ⟨?_, ?_, ?_, ?_, ?_⟩
  · have h := (C1_ptzTranslate_cases
      { Action := "pan", Direction := -1, Speed := 0, Preset := "" }).1 rfl (by norm_num)
    rw [h]
    norm_num [goSpeed]
  · have h := (C1_ptzTranslate_cases
      { Action := "pan", Direction := 1, Speed := 1/2, Preset := "" }).2.1 rfl (by norm_num)
    rw [h]
    norm_num [goSpeed, goIntOfRat]
  · have h := (C1_ptzTranslate_cases
      { Action := "stop", Direction := 0, Speed := 0, Preset := "" }).2.2.2.2.2.2.1 rfl
    rw [h]
    norm_num [goSpeed]
  · have h := (C1_ptzTranslate_cases
      { Action := "preset", Direction := 0, Speed := 0, Preset := "p1" }).2.2.2.2.2.2.2.1 rfl
    rw [h]
    norm_num [goSpeed]
  · exact (C1_ptzTranslate_cases
      { Action := "wave", Direction := 0, Speed := 0, Preset := "" }).2.2.2.2.2.2.2.2 (by decide)

/-- Counterexample for C1 as stated: at speed 0.9 the code sends the truncated
speed 57, while rounding 0.9 * 64 = 57.6 gives 58. -/
theorem C1_counterexample :
    ptzTranslate { Action := "pan", Direction := 1, Speed := 9/10, Preset := "" } =
      .ok { Operation := "Right", Speed := 57, Preset := "" } ∧
    round ((9/10 : Rat) * 64) = 58 := by
  constructor
  · norm_num [ptzTranslate, goIntOfRat, Except.map]
  · norm_num [round_eq]

/-- Claim C2: the device-type classification evaluated on the claim's six
models; the repository's own test table expects nvr for RLN8-410, but the
classifier's nvr branch matches only the substrings nvr and rlnk, so the
model falls through to the default camera class. -/
theorem C2_detectDeviceType_eval :
    Client.detectDeviceType (bytes "Reolink Video Doorbell PoE") = "doorbell" ∧
    Client.detectDeviceType (bytes "RLN8-410") = "camera" ∧
    Client.detectDeviceType (bytes "RLN8-410") ≠ "nvr" ∧
    Client.detectDeviceType (bytes "Argus 3 Pro") = "battery_camera" ∧
    Client.detectDeviceType (bytes "TrackMix PoE") = "ptz_camera" ∧
    Client.detectDeviceType (bytes "Reolink Duo Floodlight") = "floodlight_camera" ∧
    Client.detectDeviceType (bytes "RLC-810A") = "camera" := by
  refine ⟨?_, ?_, ?_, ?_, ?_, ?_, ?_⟩ <;> decide

/-! Concrete fixtures used by witnesses and counterexamples. -/

/-- Connection data of a sample client. -/
def cfg0 : ClientCfg :=
  { host := bytes "cam", port := 80, username := bytes "admin", password := bytes "pass" }

/-- Fresh client authentication state. -/
def st0 : ClientState := { token := [], tokenExp := 0, useBasicAuth := false }

/-- Client state right after a successful basic-auth probe. -/
def stBasic : ClientState := basicAuthSuccess st0

/-- Claim C3 (amended): in basic-auth mode with no stored token,
`ensureToken` never logs in (so no token is ever stored), every request built
by `doRequest` carries the raw credentials as URL query parameters and no
token parameter, but the snapshot URL always appends a token query parameter
(empty in this mode) and carries no credentials. -/
theorem C3_basicAuth_requests (cfg : ClientCfg) (st : ClientState)
    (hb : st.useBasicAuth = true) (ht : st.token = []) :
    (∀ now, ensureTokenLogins st now = 0) ∧
    doRequestReqURL cfg st true =
      apiURL cfg ++ bytes "?user=" ++ queryEscape cfg.username ++
        bytes "&password=" ++ queryEscape cfg.password ∧
    (∀ ch, snapURL cfg st ch =
      baseURL cfg ++ bytes "/cgi-bin/api.cgi?cmd=Snap&channel=" ++ natBytes ch ++
        bytes "&token=") := by
  refine ⟨?_, ?_, ?_⟩
  · intro now
    simp [ensureTokenLogins, needLogin, hb]
  · simp [doRequestReqURL, hb]
  · intro ch
    simp [snapURL, ht]

/-- Witness for C3: the three request shapes at a concrete basic-auth client. -/
theorem C3_basicAuth_requests_witness :
    ensureTokenLogins stBasic 12345 = 0 ∧
    doRequestReqURL cfg0 stBasic true = bytes "http://cam:80/api.cgi?user=admin&password=pass" ∧
    snapURL cfg0 stBasic 0 = bytes "http://cam:80/cgi-bin/api.cgi?cmd=Snap&channel=0&token=" := by
  have h := C3_basicAuth_requests cfg0 stBasic rfl rfl
  exact ⟨h.1 12345, h.2.1.trans (by decide), (h.2.2 0).trans (by decide)⟩

/-- Counterexample for C3 as stated: in basic-auth mode the snapshot request
carries a token parameter and no credential parameters. -/
theorem C3_counterexample :
    listContains (snapURL cfg0 stBasic 0) (bytes "token=") = true ∧
    listContains (snapURL cfg0 stBasic 0) (bytes "user=") = false ∧
    listContains (snapURL cfg0 stBasic 0) (bytes "password=") = false := by
  refine ⟨?_, ?_, ?_⟩ <;> decide

/-- Claim C5: a successful token login at time T with effective lease L
(default 3600) records expiry T + (L - 60); with a nonempty token and no
basic-auth flag, `ensureToken` performs no login strictly before the expiry
and exactly one login strictly after it. -/
theorem C5_token_lease (st : ClientState) (T : Int) (tokenName : List Nat)
    (lease : Option Int) (hb : st.useBasicAuth = false) (hn : tokenName ≠ []) :
    (loginToken st T tokenName lease).tokenExp = T + (lease.getD 3600 - 60) ∧
    (∀ now, now < (loginToken st T tokenName lease).tokenExp →
      ensureTokenLogins (loginToken st T tokenName lease) now = 0) ∧
    (∀ now, (loginToken st T tokenName lease).tokenExp < now →
      ensureTokenLogins (loginToken st T tokenName lease) now = 1) := by
  refine ⟨rfl, ?_, ?_⟩
  · intro now h
    simp only [loginToken] at h
    simp [ensureTokenLogins, needLogin, loginToken, hb, hn, not_lt.mpr (le_of_lt h)]
  · intro now h
    simp only [loginToken] at h
    simp [ensureTokenLogins, needLogin, loginToken, hb, hn, h]

/-- Witness for C5: lease 3600 at T = 1000 gives expiry 4540; no login one
second before the expiry margin, one login one second after. -/
theorem C5_token_lease_witness :
    (loginToken st0 1000 (bytes "tok") (some 3600)).tokenExp = 4540 ∧
    ensureTokenLogins (loginToken st0 1000 (bytes "tok") (some 3600)) 4539 = 0 ∧
    ensureTokenLogins (loginToken st0 1000 (bytes "tok") (some 3600)) 4541 = 1 := by
  have h := C5_token_lease st0 1000 (bytes "tok") (some 3600) rfl (by decide)
  refine ⟨h.1.trans (by decide), h.2.1 4539 ?_, h.2.2 4541 ?_⟩
  · rw [h.1]
    decide
  · rw [h.1]
    decide

/-- Claim C6 (amended): the recorded token expiry is strictly in the future at
login time exactly when the effective lease exceeds the 60-second safety
margin; the default lease 3600 qualifies, but a reported lease of at most 60
seconds yields an expiry at or before the login instant. -/
theorem C6_tokenExp_future (st : ClientState) (T : Int) (tokenName : List Nat)
    (lease : Option Int) :
    T < (loginToken st T tokenName lease).tokenExp ↔ 60 < lease.getD 3600 := by
  simp only [loginToken]
  omega

/-- Counterexample for C6 as stated: a device-reported lease of 60 seconds
records an expiry equal to the login time, not strictly in the future. -/
theorem C6_counterexample :
    (loginToken st0 1000 (bytes "tok") (some 60)).tokenExp = 1000 ∧
    ¬ 1000 < (loginToken st0 1000 (bytes "tok") (some 60)).tokenExp := by
  refine ⟨?_, ?_⟩ <;> decide

theorem probeCamera_of_error {env : ProbeEnv} {e : String}
    (h : env.devInfoRaw = .error e) :
    probeCamera env = .error ("failed to get device info: " ++ e) := by
  unfold probeCamera getDeviceInfo
  rw [h]

theorem probeCamera_of_ok {env : ProbeEnv} {raw : RawDevInfo}
    (h : env.devInfoRaw = .ok raw) :
    probeCamera env = .ok (probeResult env (devInfoOf raw)) := by
  unfold probeCamera getDeviceInfo
  rw [h]

/-- Claim C4: the probe fails, wrapping the cause, exactly when the
device-info fetch fails; on success it yields one channel entry per reported
channel (count defaulting to 1 when unreported), an ability-fetch failure
leaves the declared flags false, and a per-channel encoder failure leaves that
channel's stream profiles zero-valued. -/
theorem C4_probeCamera_errors (env : ProbeEnv) :
    (∀ e, env.devInfoRaw = .error e →
      probeCamera env = .error ("failed to get device info: " ++ e)) ∧
    (∀ raw, env.devInfoRaw = .ok raw → ∃ r, probeCamera env = .ok r ∧
      r.Channels.length = r.ChannelCount ∧
      r.ChannelCount = (if raw.channelNum.getD 0 = 0 then 1 else raw.channelNum.getD 0)) ∧
    (∀ r, probeCamera env = .ok r → ∀ e, env.ability = .error e →
      r.HasPTZ = false ∧ r.HasTwoWayAudio = false ∧ r.HasAudioAlarm = false) ∧
    (∀ r, probeCamera env = .ok r → ∀ ch ci, r.Channels[ch]? = some ci →
      ci.Channel = ch ∧
      (∀ e, env.enc ch = .error e →
        ci.MainStream = {} ∧ ci.SubStream = {} ∧ ci.Codec = [])) := by
  have hok : ∀ r, probeCamera env = .ok r →
      ∃ raw, env.devInfoRaw = .ok raw ∧ r = probeResult env (devInfoOf raw) := by
    intro r hr
    cases henv : env.devInfoRaw with
    | error e =>
      rw [probeCamera_of_error henv] at hr
      cases hr
    | ok raw =>
      rw [probeCamera_of_ok henv] at hr
      injection hr with hr
      exact ⟨raw, rfl, hr.symm⟩
  refine ⟨?_, ?_, ?_, ?_⟩
  · intro e he
    exact probeCamera_of_error he
  · intro raw hr
    refine ⟨probeResult env (devInfoOf raw), probeCamera_of_ok hr, ?_, ?_⟩ <;>
      simp [probeResult, devInfoOf]
  · intro r hr e hab
    obtain ⟨raw, -, rfl⟩ := hok r hr
    simp [probeResult, hab]
  · intro r hr ch ci hci
    obtain ⟨raw, -, rfl⟩ := hok r hr
    simp only [probeResult, List.getElem?_map] at hci
    by_cases hlt : ch < (devInfoOf raw).ChannelCount
    · rw [List.getElem?_range hlt] at hci
      simp only [Option.map_some', Option.some.injEq] at hci
      subst hci
      refine ⟨probeChannel_Channel env ch, ?_⟩
      intro e he
      exact probeChannel_error he
    · rw [List.getElem?_eq_none (by simpa using Nat.le_of_not_lt hlt)] at hci
      simp at hci

/-- Probe fixture for the C4 witness: a 4-channel device whose ability fetch
fails and whose encoder fetch fails on channel 2 only. -/
def envC4 : ProbeEnv :=
  { cfg := cfg0
    devInfoRaw := .ok { model := some (bytes "RLN8-410"), name := some (bytes "NVR")
                        serial := none, firmVer := none, channelNum := some 4 }
    ability := .error "GetAbility failed"
    enc := fun ch =>
      if ch = 2 then .error "GetEnc failed"
      else .ok { MainStream := { Width := 1920, Height := 1080, FrameRate := 30
                                 BitRate := 4096, Codec := bytes "h264" }
                 SubStream := {} } }

/-- Witness for C4: the 4-channel probe with a failing channel-2 encoder
fetch still yields 4 entries, declared flags false, and a zero-valued
channel 2. -/
theorem C4_probeCamera_errors_witness :
    (∃ r, probeCamera envC4 = .ok r ∧ r.Channels.length = r.ChannelCount ∧
      r.ChannelCount = 4 ∧ r.HasPTZ = false ∧
      (∀ ci, r.Channels[2]? = some ci →
        ci.MainStream = ({} : StreamConfig) ∧ ci.Channel = 2)) ∧
    (probeCamera envC4).toOption.map (fun r => r.Channels.map (fun ci => ci.MainStream.Width)) =
      some [1920, 1920, 0, 1920] := by
  constructor
  · obtain ⟨r, hr, hlen, hcc⟩ := (C4_probeCamera_errors envC4).2.1 _ rfl
    refine ⟨r, hr, hlen, by rw [hcc]; rfl, ?_, ?_⟩
    · exact ((C4_probeCamera_errors envC4).2.2.1 r hr "GetAbility failed" rfl).1
    · intro ci hci
      have h := (C4_probeCamera_errors envC4).2.2.2 r hr 2 ci hci
      exact ⟨(h.2 "GetEnc failed" rfl).1, h.1⟩
  · decide

/-- Claim C7 (amended): the camera-side AI heuristic returns false exactly
when some denylist entry embeds into the model as a case-insensitive
subsequence (the recursive helper does not require contiguity); on the
claim's concrete models the advertised values hold. -/
theorem C7_hasAIDetection_denylist (model : List Nat) :
    (hasAIDetection model = false ↔ ∃ p ∈ noAI, isSubseqCI p model = true) ∧
    hasAIDetection (bytes "RLC-810A") = true ∧
    hasAIDetection (bytes "RLC-410") = false ∧
    hasAIDetection (bytes "RLC-420") = false ∧
    hasAIDetection (bytes "E1 Zoom") = false ∧
    hasAIDetection (bytes "C1 Pro") = false := by
  refine ⟨?_, by decide, by decide, by decide, by decide, by decide⟩
  simp only [hasAIDetection, Bool.not_eq_false', List.any_eq_true,
    containsIgnoreCase_eq_isSubseqCI]

/-- Counterexample for C7 as stated: the model RLxC-410 contains no denylist
entry as a contiguous substring, yet the heuristic declares it AI-less,
because rlc-410 embeds into it as a subsequence. -/
theorem C7_counterexample :
    hasAIDetection (bytes "RLxC-410") = false ∧
    substrCI (bytes "RLxC-410") (bytes "rlc-410") = false ∧
    substrCI (bytes "RLxC-410") (bytes "rlc-420") = false ∧
    substrCI (bytes "RLxC-410") (bytes "e1 zoom") = false ∧
    substrCI (bytes "RLxC-410") (bytes "c1 pro") = false := by
  refine ⟨?_, ?_, ?_, ?_, ?_⟩ <;> decide

/-- Claim C8 (amended): a probed device reports `IsNVR` exactly when its
channel count exceeds 1 or its lowered model contains one of nvr, rln8-410,
rln16-410, rln36 (the classifier's list does not include rlnk). -/
theorem C8_isNVR_characterization (env : ProbeEnv) (r : CameraProbeResult)
    (h : probeCamera env = .ok r) :
    r.IsNVR = true ↔
      (1 < r.ChannelCount ∨
        ∃ nm ∈ Client.nvrModels, listContains (goToLower r.Model) nm = true) := by
  cases henv : env.devInfoRaw with
  | error e =>
    rw [probeCamera_of_error henv] at h
    cases h
  | ok raw =>
    rw [probeCamera_of_ok henv] at h
    injection h with h
    subst h
    simp [probeResult, Client.isNVRModel, List.any_eq_true]

/-- Probe fixture for the C8 witness: a single-channel RLN8-410. -/
def envC8 : ProbeEnv :=
  { cfg := cfg0
    devInfoRaw := .ok { model := some (bytes "RLN8-410"), channelNum := some 1 }
    ability := .error "GetAbility failed"
    enc := fun _ => .error "GetEnc failed" }

/-- Witness for C8: the characterization instantiated on a single-channel
RLN8-410, whose probe reports `IsNVR` despite one channel. -/
theorem C8_isNVR_characterization_witness :
    ∃ r, probeCamera envC8 = .ok r ∧
      (r.IsNVR = true ↔
        (1 < r.ChannelCount ∨
          ∃ nm ∈ Client.nvrModels, listContains (goToLower r.Model) nm = true)) ∧
      r.IsNVR = true ∧ ¬ 1 < r.ChannelCount := by
  refine ⟨_, rfl, C8_isNVR_characterization envC8 _ rfl, by decide, by decide⟩

/-- Probe fixture for the C8 counterexample: a single-channel model whose
name contains rlnk but no entry of the classifier's list. -/
def envRLNK : ProbeEnv :=
  { cfg := cfg0
    devInfoRaw := .ok { model := some (bytes "RLNK-810"), channelNum := some 1 }
    ability := .error "GetAbility failed"
    enc := fun _ => .error "GetEnc failed" }

/-- Counterexample for C8 as stated: a single-channel device whose model
contains the substring rlnk is not reported as an NVR. -/
theorem C8_counterexample :
    (probeCamera envRLNK).toOption.map (fun r => r.IsNVR) = some false ∧
    (probeCamera envRLNK).toOption.map (fun r => decide (1 < r.ChannelCount)) = some false ∧
    listContains (goToLower (bytes "RLNK-810")) (bytes "rlnk") = true := by
  refine ⟨?_, ?_, ?_⟩ <;> decide

theorem connectDevice_of_ok {env : ConnectEnv} {device : DeviceConfig} {reg : Registry}
    {info : DeviceInfo} (hl : env.login = .ok ())
    (hd : getDeviceInfo env.devInfoRaw = .ok info) :
    connectDevice env device reg =
      .ok ((if device.Channels = [] then List.range info.ChannelCount else device.Channels).foldl
        (fun r ch => mapSet r (camID device.Host ch) (connCam device info (abilityOpt env) ch))
        reg) := by
  unfold connectDevice
  rw [hl, hd]

/-- Claim C9 (amended): adding a camera whose id is already registered does
not fail — `connectDevice` registers by plain map assignment, so the add
succeeds and the freshly built handle replaces the previously registered one
under that id. Stated for an explicitly configured (positive) channel. -/
theorem C9_duplicate_add_overwrites (env : ConnectEnv) (cfg : CameraConfig)
    (reg : Registry) (hl : env.login = .ok ()) (info : DeviceInfo)
    (hd : getDeviceInfo env.devInfoRaw = .ok info) (hch : 0 < cfg.Channel)
    (old : CamRec) (_hold : mapGet reg (camID cfg.Host cfg.Channel) = some old) :
    ∃ reg' lookedUp, AddCamera env cfg reg = .ok (reg', lookedUp) ∧
      mapGet reg' (camID cfg.Host cfg.Channel) =
        some (protoPatch cfg (connCam (deviceOf cfg) info (abilityOpt env) cfg.Channel)) := by
  have hchan : (deviceOf cfg).Channels = [cfg.Channel] := by
    simp [deviceOf, hch]
  have hconn : connectDevice env (deviceOf cfg) reg =
      .ok (mapSet reg (camID cfg.Host cfg.Channel)
        (connCam (deviceOf cfg) info (abilityOpt env) cfg.Channel)) := by
    rw [connectDevice_of_ok hl hd, hchan]
    have : ¬ ([cfg.Channel] : List Nat) = [] := by simp
    rw [if_neg this]
    simp [List.foldl, deviceOf]
  have hAdd : AddCamera env cfg reg = .ok
      (if cfg.Protocol ≠ [] then
         mapUpdate (mapSet reg (camID cfg.Host cfg.Channel)
             (connCam (deviceOf cfg) info (abilityOpt env) cfg.Channel))
           (camID cfg.Host cfg.Channel) (SetProtocol cfg.Protocol)
       else mapSet reg (camID cfg.Host cfg.Channel)
           (connCam (deviceOf cfg) info (abilityOpt env) cfg.Channel),
       mapGet
         (if cfg.Protocol ≠ [] then
            mapUpdate (mapSet reg (camID cfg.Host cfg.Channel)
                (connCam (deviceOf cfg) info (abilityOpt env) cfg.Channel))
              (camID cfg.Host cfg.Channel) (SetProtocol cfg.Protocol)
          else mapSet reg (camID cfg.Host cfg.Channel)
              (connCam (deviceOf cfg) info (abilityOpt env) cfg.Channel))
         (camID cfg.Host cfg.Channel)) := by
    unfold AddCamera
    rw [hconn]
  refine ⟨_, _, hAdd, ?_⟩
  by_cases hp : cfg.Protocol ≠ []
  · rw [if_pos hp, mapGet_mapUpdate_self, mapGet_mapSet_self]
    simp [protoPatch, hp]
  · rw [if_neg hp, mapGet_mapSet_self]
    simp [protoPatch, hp]

/-- Registry fixture for C9: a handle named OLD already registered under the
id of host h, channel 1. -/
def oldCamC9 : CamRec :=
  { id := camID (bytes "h") 1, name := bytes "OLD", model := bytes "RLC-810A"
    host := bytes "h", channel := 1, protocol := bytes "rtsp" }

/-- Registry fixture for C9 holding only `oldCamC9`. -/
def regC9 : Registry := [(camID (bytes "h") 1, oldCamC9)]

/-- Connect fixture for C9: login and device info succeed, the device info
names the device NEW and reports 2 channels; the ability fetch fails. -/
def envC9 : ConnectEnv :=
  { login := .ok ()
    devInfoRaw := .ok { model := some (bytes "RLC-810A"), name := some (bytes "NEW")
                        channelNum := some 2 }
    ability := .error "GetAbility failed" }

/-- Camera configuration fixture for C9: same host and channel as the
registered handle. -/
def cfgC9 : CameraConfig := { Host := bytes "h", Channel := 1 }

/-- Witness for C9: adding over the existing handle succeeds and the stored
handle becomes the newly built one. -/
theorem C9_duplicate_add_overwrites_witness :
    ∃ reg' lookedUp, AddCamera envC9 cfgC9 regC9 = .ok (reg', lookedUp) ∧
      mapGet reg' (camID (bytes "h") 1) =
        some (protoPatch cfgC9 (connCam (deviceOf cfgC9)
          (devInfoOf { model := some (bytes "RLC-810A"), name := some (bytes "NEW")
                       channelNum := some 2 })
          (abilityOpt envC9) 1)) := by
  exact C9_duplicate_add_overwrites envC9 cfgC9 regC9 rfl _ rfl (by decide) oldCamC9 (by decide)

/-- Counterexample for C9 as stated: the duplicate add returns success, and
the handle stored under the id afterwards is the new one (named NEW Ch2), not
the previously registered handle named OLD. -/
theorem C9_counterexample :
    (AddCamera envC9 cfgC9 regC9).toOption.map
        (fun p => (mapGet p.1 (camID (bytes "h") 1)).map (fun c => c.name)) =
      some (some (bytes "NEW Ch2")) ∧
    mapGet regC9 (camID (bytes "h") 1) = some oldCamC9 ∧
    oldCamC9.name = bytes "OLD" := by
  refine ⟨?_, ?_, ?_⟩ <;> decide

/-- Claim C10: a new camera handle's protocol is rtsp, setting the empty
protocol stores rtsp instead, and after any sequence of protocol updates the
protocol accessor returns a nonempty value. -/
theorem C10_protocol_nonempty (id name model host : List Nat) (channel : Nat)
    (ps : List (List Nat)) :
    (NewCamera id name model host channel).protocol = bytes "rtsp" ∧
    (∀ c : CamRec, (SetProtocol [] c).protocol = bytes "rtsp") ∧
    Protocol (ps.foldl (fun c p => SetProtocol p c) (NewCamera id name model host channel)) ≠
      [] := by
  exact ⟨rfl, fun c => rfl, Protocol_ne_nil _⟩

end Reolink
